import Mathlib

/-!
Verification of the jaseci repository's file-upload surface and settings
loader: a shallow embedding of `_extract_transport_response_data`
(jac-scale test helper), the request binder and transport envelope of
spec §4.4/§4.6, `UploadFile.from_bytes`, the OpenAPI media-type facts of
spec §6, and `jaclang/settings.py` (convert_type, str_to_bool, the
config-file / environment merge in load_all).
-/

namespace Jaseci

/-! ## JSON values and Python dict semantics -/

/-- A JSON value as decoded by Python's `json` module: `None`, `bool`,
`int`, `str`, `list`, `dict` (an association list in insertion order). -/
inductive JVal where
  | jNull
  | jBool (b : Bool)
  | jInt (n : Int)
  | jStr (s : String)
  | jArr (xs : List JVal)
  | jObj (kvs : List (String × JVal))

/-- Python `d.get(k)` / `d[k]` on a decoded JSON dict: the first binding
of `k` (decoded dicts have unique keys). -/
def dictGet (kvs : List (String × JVal)) (k : String) : Option JVal :=
  match kvs with
  | [] => none
  | (k', v) :: rest => if k' = k then some v else dictGet rest k

/-- Python `k in d`. -/
def hasKey (kvs : List (String × JVal)) (k : String) : Bool :=
  match kvs with
  | [] => false
  | (k', _) :: rest => k' = k || hasKey rest k

/-- Python truthiness of a decoded JSON value: `None`, `False`, `0`, `""`,
`[]` and `{}` are falsy, everything else truthy. -/
def pyTruthy : JVal → Bool
  | .jNull => false
  | .jBool b => b
  | .jInt n => n != 0
  | .jStr s => s ≠ ""
  | .jArr xs => !xs.isEmpty
  | .jObj kvs => !kvs.isEmpty

/-- Truthiness of a Python optional (`d.get(k)`): `None` when the key is
missing, the value's truthiness otherwise. -/
def optTruthy : Option JVal → Bool
  | none => false
  | some v => pyTruthy v

/-- Python `d.get(k) is None`: true when the key is missing (`get`
returns `None`) or the stored value is the decoded `None` (`null`). -/
def isPyNone : Option JVal → Bool
  | none => true
  | some .jNull => true
  | some _ => false

/-- Constructor tag of a `JVal`, to separate values of different shapes. -/
def ctorTag : JVal → Nat
  | .jNull => 0
  | .jBool _ => 1
  | .jInt _ => 2
  | .jStr _ => 3
  | .jArr _ => 4
  | .jObj _ => 5

/-! ## The transport-envelope extractor of the jac-scale tests -/

/-- The dict the extractor builds on the failure branch:
`{"error": message}` plus `error_code` / `error_details` when the error
object has `code` / `details` keys, in that insertion order. -/
def errorRecovery (ekvs : List (String × JVal)) : JVal :=
  let r := [("error", (dictGet ekvs "message").getD (.jStr "Unknown error"))]
  let r := if hasKey ekvs "code" then
    r ++ [("error_code", (dictGet ekvs "code").getD .jNull)] else r
  let r := if hasKey ekvs "details" then
    r ++ [("error_details", (dictGet ekvs "details").getD .jNull)] else r
  .jObj r

/-- `_extract_transport_response_data` from
`jac_scale/tests/test_file_upload.py`: unwrap a two-element
`[status, body]` pair to its second element; then, on an envelope dict
(has both `ok` and `data` keys), return `data` when `ok` is truthy and
`data` is not `None`, or the recovered error dict when `ok` is falsy and
`error` truthy; otherwise return the input unchanged.  The error branch
calls `.get` on the error value, so a non-dict error raises
(`AttributeError`), modelled as `Except.error`. -/
def extract_transport_response_data (j0 : JVal) : Except String JVal :=
  let j := match j0 with
    | .jArr [_, b] => b
    | _ => j0
  match j with
  | .jObj kvs =>
    if hasKey kvs "ok" && hasKey kvs "data" then
      if optTruthy (dictGet kvs "ok") && !isPyNone (dictGet kvs "data") then
        .ok ((dictGet kvs "data").getD .jNull)
      else if !optTruthy (dictGet kvs "ok") && optTruthy (dictGet kvs "error") then
        match dictGet kvs "error" with
        | some (.jObj ekvs) => .ok (errorRecovery ekvs)
        | _ => .error "AttributeError"
      else .ok (.jObj kvs)
    else .ok (.jObj kvs)
  | _ => .ok j

/-! ## The transport envelope (spec §4.6) -/

/-- Modelled from the spec: the §4.6 failure envelope
`{ok: false, data: null, error: {...}}` — the server code that emits
envelopes is not under src/; only its client-side consumer
(`_extract_transport_response_data`) is. -/
def mkFailureEnvelope (ekvs : List (String × JVal)) : JVal :=
  .jObj [("ok", .jBool false), ("data", .jNull), ("error", .jObj ekvs)]

/-- Modelled from the spec: the §4.6 success envelope, `ok=true` and
`data` holding the walker's report list in emission order. -/
def mkSuccessEnvelope (reports : List JVal) : JVal :=
  .jObj [("ok", .jBool true),
         ("data", .jObj [("reports", .jArr reports)]),
         ("error", .jNull)]

/-! ## `jaclang/settings.py` -/

/-- Python `str.upper` on the ASCII strings used here. -/
def pyUpper (s : String) : String := String.mk (s.data.map Char.toUpper)

/-- Python `str.lower` on the ASCII strings used here. -/
def pyLower (s : String) : String := String.mk (s.data.map Char.toLower)

/-- Python `str.isdigit` restricted to ASCII: nonempty and every
character a decimal digit (the Unicode-digit cases of `isdigit` are not
exercised here). -/
def pyIsDigit (s : String) : Bool :=
  !s.data.isEmpty && s.data.all Char.isDigit

/-- Python `int(s)` on an all-digit string: its decimal value. -/
def decimalNat (s : String) : Nat :=
  s.data.foldl (fun n c => 10 * n + (c.toNat - 48)) 0

/-- `Settings.str_to_bool`: lower-cased membership in the true-values. -/
def str_to_bool (value : String) : Bool :=
  ["yes", "y", "true", "t", "1"].contains (pyLower value)

/-- `Settings.convert_type`: digit strings become `int` first; otherwise
boolean-looking strings become `bool` via `str_to_bool`; otherwise the
string is kept. -/
def convert_type (value : String) : JVal :=
  if pyIsDigit value then .jInt (decimalNat value)
  else if ["true", "false", "t", "f", "yes", "no", "y", "n", "1", "0"].contains
      (pyLower value) then .jBool (str_to_bool value)
  else .jStr value

/-- The mutable `Settings` instance, as a map from dataclass field name
to current value. -/
def SettingsMap : Type := String → JVal

/-- Python `setattr(self, k, v)`. -/
def setVal (s : SettingsMap) (k : String) (v : JVal) : SettingsMap :=
  fun k' => if k' = k then v else s k'

/-- `[f.name for f in fields(self)]`, in declaration order. -/
def fieldNames : List String :=
  ["fuse_type_info_debug", "filter_sym_builtins", "ast_symbol_info_detailed",
   "pass_timer", "collect_py_dep_debug", "print_py_raised_ast",
   "disable_mtllm", "ignore_test_annex", "max_line_length", "lsp_debug",
   "remote_module_handling", "modules_to_remote", "pod_manager_url",
   "module_config"]

/-- The `module_config` default factory dict. -/
def defaultModuleConfig : JVal :=
  .jObj
    [("numpy", .jObj
        [("lib_mem_size_req", .jStr "100Mi"),
         ("dependency", .jArr [.jStr "math", .jStr "mkl"]),
         ("lib_cpu_req", .jStr "500m"),
         ("load_type", .jStr "remote")]),
     ("pandas", .jObj
        [("lib_mem_size_req", .jStr "200Mi"),
         ("dependency", .jArr [.jStr "numpy", .jStr "pytz", .jStr "dateutil"]),
         ("lib_cpu_req", .jStr "700m"),
         ("load_type", .jStr "remote")]),
     ("transformers", .jObj
        [("lib_mem_size_req", .jStr "2000Mi"),
         ("dependency", .jArr [.jStr "torch", .jStr "transformers"]),
         ("lib_cpu_req", .jStr "1.0"),
         ("load_type", .jStr "remote")]),
     ("ollama", .jObj
        [("lib_mem_size_req", .jStr "300Mi"),
         ("dependency", .jArr [.jStr "ollama"]),
         ("lib_cpu_req", .jStr "500m"),
         ("load_type", .jStr "remote")])]

/-- The dataclass field defaults of `Settings`. -/
def initialSettings : SettingsMap := fun k =>
  match k with
  | "fuse_type_info_debug" => .jBool false
  | "filter_sym_builtins" => .jBool true
  | "ast_symbol_info_detailed" => .jBool false
  | "pass_timer" => .jBool false
  | "collect_py_dep_debug" => .jBool false
  | "print_py_raised_ast" => .jBool false
  | "disable_mtllm" => .jBool false
  | "ignore_test_annex" => .jBool false
  | "max_line_length" => .jInt 88
  | "lsp_debug" => .jBool false
  | "remote_module_handling" => .jBool true
  | "modules_to_remote" => .jNull
  | "pod_manager_url" => .jStr "http://smartimport.apps.bcstechnology.com.au"
  | "module_config" => defaultModuleConfig
  | _ => .jNull

/-- The `~/.jaclang/config.ini` file: its `[settings]` and `[modules]`
sections, each a list of key/value entries in file order. -/
structure ConfigFile where
  settingsSection : Option (List (String × String))
  modulesSection : Option (List (String × String))

/-- A config file with neither section. -/
def emptyConfig : ConfigFile := ⟨none, none⟩

/-- The process environment, `os.getenv`. -/
def Env : Type := String → Option String

/-- An environment with no variables set. -/
def emptyEnv : Env := fun _ => none

/-- `Settings.load_config_file`: every `[settings]` entry whose key is a
dataclass field is assigned, converted by `convert_type`. -/
def load_config_file (cfg : ConfigFile) (s : SettingsMap) : SettingsMap :=
  match cfg.settingsSection with
  | none => s
  | some entries =>
    entries.foldl
      (fun s kv =>
        if kv.1 ∈ fieldNames then setVal s kv.1 (convert_type kv.2) else s) s

/-- The per-field environment lookup of `load_env_vars`:
`JACLANG_<NAME>`, else `JAC_<NAME>`. -/
def envLookup (env : Env) (k : String) : Option String :=
  (env ("JACLANG_" ++ pyUpper k)).orElse (fun _ => env ("JAC_" ++ pyUpper k))

/-- One iteration of the `load_env_vars` field loop. -/
def applyEnvKey (env : Env) (k : String) (s : SettingsMap) : SettingsMap :=
  match envLookup env k with
  | some v => setVal s k (convert_type v)
  | none => s

/-- `Settings.load_env_vars`: the field loop, then
`self.pod_manager_url = os.getenv("POD_MANAGER_URL", self.pod_manager_url)`. -/
def load_env_vars (env : Env) (s : SettingsMap) : SettingsMap :=
  let s1 := fieldNames.foldl (fun s k => applyEnvKey env k s) s
  setVal s1 "pod_manager_url"
    (match env "POD_MANAGER_URL" with
     | some v => .jStr v
     | none => s1 "pod_manager_url")

/-- `Settings.load_modules_to_remote`: `module_config` is replaced by the
`[modules]` section when present (a dict of strings), and
`modules_to_remote` is then always set to the current `module_config`. -/
def load_modules_to_remote (cfg : ConfigFile) (s : SettingsMap) : SettingsMap :=
  let s1 := match cfg.modulesSection with
    | some entries =>
        setVal s "module_config" (.jObj (entries.map fun kv => (kv.1, JVal.jStr kv.2)))
    | none => s
  setVal s1 "modules_to_remote" (s1 "module_config")

/-- `Settings.load_all`: config file, then environment variables, then
the modules section. -/
def load_all (cfg : ConfigFile) (env : Env) (s : SettingsMap) : SettingsMap :=
  load_modules_to_remote cfg (load_env_vars env (load_config_file cfg s))

/-- The dataclass fields not rewritten by the tail of `load_all`:
everything except `module_config`, `modules_to_remote` (both rewritten by
`load_modules_to_remote`) and `pod_manager_url` (with its extra
`POD_MANAGER_URL` override). -/
def plainFields : List String :=
  ["fuse_type_info_debug", "filter_sym_builtins", "ast_symbol_info_detailed",
   "pass_timer", "collect_py_dep_debug", "print_py_raised_ast",
   "disable_mtllm", "ignore_test_annex", "max_line_length", "lsp_debug",
   "remote_module_handling"]

/-- An environment setting only `JACLANG_MAX_LINE_LENGTH=100`. -/
def envML100 : Env :=
  fun k => if k = "JACLANG_MAX_LINE_LENGTH" then some "100" else none

/-- An environment setting only `JACLANG_MODULES_TO_REMOTE=x`. -/
def envMTR : Env :=
  fun k => if k = "JACLANG_MODULES_TO_REMOTE" then some "x" else none

/-- An environment setting only `JAC_POD_MANAGER_URL=u`. -/
def envJacPod : Env :=
  fun k => if k = "JAC_POD_MANAGER_URL" then some "u" else none

/-- An environment setting only `POD_MANAGER_URL=http://pod`. -/
def envPod : Env :=
  fun k => if k = "POD_MANAGER_URL" then some "http://pod" else none

/-- A config file assigning `max_line_length` and `pass_timer`. -/
def cfgW : ConfigFile :=
  ⟨some [("max_line_length", "70"), ("pass_timer", "1")], none⟩

/-! ## The request binder (spec §4.4) -/

/-- Generic association-list lookup (Python dict access for the binder's
form fields and parts). -/
def alookup {α : Type} (kvs : List (String × α)) (k : String) : Option α :=
  match kvs with
  | [] => none
  | (k', v) :: rest => if k' = k then some v else alookup rest k

/-- Modelled from the spec: the §4.4 semantic parameter types (the binder
implementation is not under src/, only its tests). -/
inductive ParamType where
  | scalar
  | text
  | file
deriving DecidableEq

/-- Modelled from the spec: a declared walker parameter — name, semantic
type, optional default. -/
structure Param where
  name : String
  ptype : ParamType
  default : Option JVal

/-- A multipart form part carrying a file: filename, raw bytes, declared
content type. -/
structure FilePart where
  filename : String
  content : List Nat
  contentType : String

/-- Modelled from the spec: the file value a bound file parameter
receives (`UploadFile` of `jaclang.runtimelib.server`, not under src/) —
attributes `filename`, `content` (raw bytes), `content_type`, `size`. -/
structure UploadFile where
  filename : String
  content : List Nat
  content_type : String
  size : Nat

/-- Modelled from the spec: `UploadFile.from_bytes` builds the file value
from a filename, raw bytes and content type, with `size` the byte
length. -/
def UploadFile.from_bytes (filename : String) (data : List Nat)
    (content_type : String) : UploadFile :=
  ⟨filename, data, content_type, data.length⟩

/-- A multipart body: file parts and text form fields, each keyed by
field name. -/
structure MultipartBody where
  fileParts : List (String × FilePart)
  textFields : List (String × String)

/-- An inbound request body: JSON object or multipart form data. -/
inductive RequestBody where
  | json (kvs : List (String × JVal))
  | multipart (body : MultipartBody)

/-- The §4.4/§7 binder error taxonomy. -/
inductive BindError where
  | unknownWalker
  | missingRequiredField
  | typeMismatch
  | malformedMultipart

/-- A value bound to one walker parameter: a plain JSON value or a file
value. -/
inductive BoundVal where
  | val (v : JVal)
  | file (f : UploadFile)

/-- Modelled from the spec: JSON binding of one parameter — the
like-named top-level key for scalar/text parameters (a non-string value
for a text parameter is a `TypeMismatch`), else the declared default,
else `MissingRequiredField`. -/
def bindParamJson (kvs : List (String × JVal)) (p : Param) :
    Except BindError BoundVal :=
  match p.ptype with
  | .file =>
    match p.default with
    | some d => .ok (.val d)
    | none => .error .missingRequiredField
  | .text =>
    match alookup kvs p.name with
    | some (.jStr s) => .ok (.val (.jStr s))
    | some _ => .error .typeMismatch
    | none =>
      match p.default with
      | some d => .ok (.val d)
      | none => .error .missingRequiredField
  | .scalar =>
    match alookup kvs p.name with
    | some v => .ok (.val v)
    | none =>
      match p.default with
      | some d => .ok (.val d)
      | none => .error .missingRequiredField

/-- Modelled from the spec: multipart binding of one parameter — a file
parameter from the form part whose field name matches, producing the
file value; a non-file parameter from the matching text form field, else
its default, else `MissingRequiredField`. -/
def bindParamMultipart (body : MultipartBody) (p : Param) :
    Except BindError BoundVal :=
  match p.ptype with
  | .file =>
    match alookup body.fileParts p.name with
    | some part =>
        .ok (.file (UploadFile.from_bytes part.filename part.content part.contentType))
    | none =>
      match p.default with
      | some d => .ok (.val d)
      | none => .error .missingRequiredField
  | _ =>
    match alookup body.textFields p.name with
    | some s => .ok (.val (.jStr s))
    | none =>
      match p.default with
      | some d => .ok (.val d)
      | none => .error .missingRequiredField

/-- Binding of one parameter against either body kind. -/
def bindParam (body : RequestBody) (p : Param) : Except BindError BoundVal :=
  match body with
  | .json kvs => bindParamJson kvs p
  | .multipart mp => bindParamMultipart mp p

/-- Modelled from the spec: the binder builds the populated walker input
(name-to-value bindings in declaration order); any binder error
short-circuits before the walker runs. -/
def bindWalker (schema : List Param) (body : RequestBody) :
    Except BindError (List (String × BoundVal)) :=
  match schema with
  | [] => .ok []
  | p :: rest =>
    match bindParam body p with
    | .error e => .error e
    | .ok b =>
      match bindWalker rest body with
      | .error e => .error e
      | .ok bs => .ok ((p.name, b) :: bs)

/-- Human-readable message per binder error, for the failure envelope. -/
def bindErrorMessage : BindError → String
  | .unknownWalker => "UnknownWalker"
  | .missingRequiredField => "MissingRequiredField"
  | .typeMismatch => "TypeMismatch"
  | .malformedMultipart => "MalformedMultipart"

/-- Modelled from the spec: handling `POST /walker/{name}` — bind the
body against the schema, run the walker to its report list on success,
and wrap the outcome in the transport envelope (binder errors
short-circuit to a failure envelope). -/
def handleRequest (schema : List Param)
    (walkerFn : List (String × BoundVal) → List JVal)
    (body : RequestBody) : JVal :=
  match bindWalker schema body with
  | .ok bound => mkSuccessEnvelope (walkerFn bound)
  | .error e => mkFailureEnvelope [("message", .jStr (bindErrorMessage e))]

/-- Whether a schema declares at least one file parameter (the fact the
binder exposes to the API-description generator). -/
def hasFileParam (schema : List Param) : Bool :=
  schema.any fun p => decide (p.ptype = .file)

/-- Modelled from the spec: the media types a walker path's
`requestBody.content` advertises in `GET /openapi.json` — JSON always,
`multipart/form-data` exactly when the walker has a file parameter. -/
def requestContentTypes (schema : List Param) : List String :=
  if hasFileParam schema then ["application/json", "multipart/form-data"]
  else ["application/json"]

/-- The OpenAPI paths table: one entry per walker, keyed by its URL
path. -/
def openapiPaths (walkers : List (String × List Param)) :
    List (String × List String) :=
  walkers.map fun w => ("/walker/" ++ w.1, requestContentTypes w.2)

/-! ## The fixture walkers of the file-upload tests -/

/-- Modelled from the spec: the `UploadDocument` fixture walker's
schema — a required file parameter `file` and a text parameter
`description` defaulting to `""` (the `.jac` fixture is not under
src/). -/
def uploadDocumentSchema : List Param :=
  [⟨"file", .file, none⟩, ⟨"description", .text, some (.jStr "")⟩]

/-- Modelled from the spec: the `UploadMultipleFiles` fixture walker's
schema — file parameters `file1` and `file2` and a text `label`. -/
def uploadMultipleSchema : List Param :=
  [⟨"file1", .file, none⟩, ⟨"file2", .file, none⟩,
   ⟨"label", .text, some (.jStr "")⟩]

/-- Modelled from the spec: the `SimpleGreet` fixture walker's schema — a
single text parameter `name`, no file parameters. -/
def simpleGreetSchema : List Param :=
  [⟨"name", .text, none⟩]

/-- Modelled from the spec: the `UploadDocument` walker body — reports
the bound file's filename, content type and size plus the description. -/
def uploadDocumentWalker (bound : List (String × BoundVal)) : List JVal :=
  match alookup bound "file", alookup bound "description" with
  | some (.file f), some (.val d) =>
      [.jObj [("filename", .jStr f.filename),
              ("content_type", .jStr f.content_type),
              ("size", .jInt f.size),
              ("description", d)]]
  | _, _ => []

/-- Modelled from the spec: the `UploadMultipleFiles` walker body —
reports filename and size of each bound file plus the label. -/
def uploadMultipleWalker (bound : List (String × BoundVal)) : List JVal :=
  match alookup bound "file1", alookup bound "file2", alookup bound "label" with
  | some (.file f1), some (.file f2), some (.val l) =>
      [.jObj [("file1", .jObj [("filename", .jStr f1.filename),
                               ("size", .jInt f1.size)]),
              ("file2", .jObj [("filename", .jStr f2.filename),
                               ("size", .jInt f2.size)]),
              ("label", l)]]
  | _, _, _ => []

/-- Modelled from the spec: the `SimpleGreet` walker body — reports
`Hello, <name>!`. -/
def simpleGreetWalker (bound : List (String × BoundVal)) : List JVal :=
  match alookup bound "name" with
  | some (.val (.jStr n)) => [.jObj [("message", .jStr ("Hello, " ++ n ++ "!"))]]
  | _ => []

/-- The walker table the test fixture exposes. -/
def demoWalkers : List (String × List Param) :=
  [("UploadDocument", uploadDocumentSchema),
   ("UploadMultipleFiles", uploadMultipleSchema),
   ("SimpleGreet", simpleGreetSchema)]

/-! ## Theorems -/

/-- C1: the transport envelope is accepted equally in its bare-object and
`[status, object]` pair forms — for every dict body and every status
value, extracting `[status, body]` gives the same result as extracting
`body` itself. -/
theorem extract_pair_eq_extract_bare (status : JVal) (kvs : List (String × JVal)) :
    extract_transport_response_data (.jArr [status, .jObj kvs])
      = extract_transport_response_data (.jObj kvs) := rfl

/-- `hasKey` agrees with `dictGet` key presence. -/
theorem hasKey_eq_isSome (kvs : List (String × JVal)) (k : String) :
    hasKey kvs k = (dictGet kvs k).isSome := by
  induction kvs with
  | nil => rfl
  | cons kv rest ih =>
    obtain ⟨k', v⟩ := kv
    by_cases h : k' = k <;> simp [hasKey, dictGet, h, ih]

/-- C6: extracting a failure envelope (`ok=false`, `data=null`, error
object carrying a `message`) recovers exactly the message plus the
optional `code` and `details` fields of the error object — the result is
built from the error object alone, nothing from `data`. -/
theorem failure_envelope_recovery (ekvs : List (String × JVal)) (msg : JVal)
    (hmsg : dictGet ekvs "message" = some msg) :
    extract_transport_response_data (mkFailureEnvelope ekvs)
      = .ok (.jObj ([("error", msg)]
          ++ (match dictGet ekvs "code" with
              | some c => [("error_code", c)]
              | none => [])
          ++ (match dictGet ekvs "details" with
              | some d => [("error_details", d)]
              | none => []))) := by
  cases ekvs with
  | nil => simp [dictGet] at hmsg
  | cons a rest =>
    have hred : extract_transport_response_data (mkFailureEnvelope (a :: rest))
        = .ok (errorRecovery (a :: rest)) := rfl
    rw [hred]
    simp only [errorRecovery, hasKey_eq_isSome, hmsg, Option.getD_some]
    cases hc : dictGet (a :: rest) "code" <;>
      cases hd : dictGet (a :: rest) "details" <;>
        simp [hc, hd]

/-- Closed witness for `failure_envelope_recovery`: a concrete failure
envelope with message and code recovers exactly those fields. -/
theorem failure_envelope_recovery_witness :
    extract_transport_response_data
        (mkFailureEnvelope [("message", .jStr "boom"), ("code", .jStr "E_FAIL")])
      = .ok (.jObj [("error", .jStr "boom"), ("error_code", .jStr "E_FAIL")]) :=
  failure_envelope_recovery [("message", .jStr "boom"), ("code", .jStr "E_FAIL")]
    (.jStr "boom") rfl

/-- C9: `convert_type` on a nonempty all-digit string returns the decimal
integer, never a boolean — in particular `"1"` and `"0"` become the
integers `1` and `0` although `str_to_bool` lists `"1"` among its
true-values. -/
theorem convert_type_digits (s : String) (h1 : s ≠ "")
    (h2 : s.data.all Char.isDigit = true) :
    convert_type s = .jInt (decimalNat s)
    ∧ (∀ b, convert_type s ≠ .jBool b)
    ∧ convert_type "1" = .jInt 1 ∧ convert_type "0" = .jInt 0 := by
  have hd : pyIsDigit s = true := by
    have hne : s.data.isEmpty = false := by
      rcases h : s.data.isEmpty with _ | _
      · rfl
      · exact absurd (String.ext (by simpa using h)) h1
    simp [pyIsDigit, hne, h2]
  refine ⟨?_, ?_, rfl, rfl⟩
  · simp [convert_type, hd]
  · intro b
    simp [convert_type, hd]

/-- Closed witness for `convert_type_digits` at `s = "42"`. -/
theorem convert_type_digits_witness :
    convert_type "42" = .jInt 42 ∧ (∀ b, convert_type "42" ≠ .jBool b) := by
  have h := convert_type_digits "42" (by decide) (by decide)
  exact ⟨h.1.trans rfl, h.2.1⟩

/-- `setVal` leaves other keys unchanged. -/
theorem setVal_other (s : SettingsMap) (k v k') (h : k' ≠ k) :
    setVal s k v k' = s k' := by
  simp [setVal, h]

/-- `setVal` stores at its own key. -/
theorem setVal_same (s : SettingsMap) (k v) : setVal s k v k = v := by
  simp [setVal]

/-- One environment-loop step leaves other keys unchanged. -/
theorem applyEnvKey_other (env : Env) (k : String) (s : SettingsMap) (k' : String)
    (h : k' ≠ k) : applyEnvKey env k s k' = s k' := by
  unfold applyEnvKey
  cases envLookup env k with
  | none => rfl
  | some v => exact setVal_other s k _ k' h

/-- The environment field loop leaves keys outside the list unchanged. -/
theorem envFold_not_mem (env : Env) (l : List String) (s : SettingsMap) (k : String)
    (h : k ∉ l) : (l.foldl (fun s k => applyEnvKey env k s) s) k = s k := by
  induction l generalizing s with
  | nil => rfl
  | cons a rest ih =>
    have hka : k ≠ a := fun e => h (e ▸ List.mem_cons_self a rest)
    have hkr : k ∉ rest := fun hm => h (List.mem_cons_of_mem _ hm)
    simp only [List.foldl_cons]
    rw [ih _ hkr, applyEnvKey_other env a s k hka]

/-- On a duplicate-free field list, the environment loop assigns each
listed key from its own `JACLANG_`/`JAC_` lookup, else keeps it. -/
theorem envFold_at (env : Env) (l : List String) (hnd : l.Nodup) (k : String)
    (hk : k ∈ l) (s : SettingsMap) :
    (l.foldl (fun s k => applyEnvKey env k s) s) k
      = match envLookup env k with
        | some v => convert_type v
        | none => s k := by
  induction l generalizing s with
  | nil => cases hk
  | cons a rest ih =>
    simp only [List.foldl_cons]
    rcases List.mem_cons.mp hk with rfl | hmem
    · have hkr : k ∉ rest := (List.nodup_cons.mp hnd).1
      rw [envFold_not_mem env rest _ k hkr]
      unfold applyEnvKey
      cases envLookup env k with
      | none => rfl
      | some v => exact setVal_same s k _
    · have hnd' : rest.Nodup := (List.nodup_cons.mp hnd).2
      rw [ih hnd' hmem]
      have hka : k ≠ a := by
        intro e; subst e; exact absurd hmem (List.nodup_cons.mp hnd).1
      cases envLookup env k with
      | some v => rfl
      | none => exact applyEnvKey_other env a s k hka

/-- The `[settings]` fold leaves untouched any key no entry names. -/
theorem cfgFold_not_mem (entries : List (String × String)) (s : SettingsMap)
    (k : String) (h : ∀ kv ∈ entries, kv.1 ≠ k) :
    (entries.foldl
      (fun s kv =>
        if kv.1 ∈ fieldNames then setVal s kv.1 (convert_type kv.2) else s) s) k
      = s k := by
  induction entries generalizing s with
  | nil => rfl
  | cons a rest ih =>
    simp only [List.foldl_cons]
    rw [ih _ (fun kv hm => h kv (List.mem_cons_of_mem _ hm))]
    by_cases hf : a.1 ∈ fieldNames
    · rw [if_pos hf, setVal_other _ _ _ _ (Ne.symm (h a (List.mem_cons_self a rest)))]
    · rw [if_neg hf]

/-- On a `[settings]` section with duplicate-free keys, an entry for a
dataclass field is stored converted. -/
theorem cfgFold_at (entries : List (String × String)) (k : String) (v : String)
    (hnd : (entries.map Prod.fst).Nodup) (hmem : (k, v) ∈ entries)
    (hf : k ∈ fieldNames) (s : SettingsMap) :
    (entries.foldl
      (fun s kv =>
        if kv.1 ∈ fieldNames then setVal s kv.1 (convert_type kv.2) else s) s) k
      = convert_type v := by
  induction entries generalizing s with
  | nil => cases hmem
  | cons a rest ih =>
    simp only [List.map_cons, List.nodup_cons] at hnd
    simp only [List.foldl_cons]
    rcases List.mem_cons.mp hmem with rfl | hmem'
    · have hother : ∀ kv ∈ rest, kv.1 ≠ k := by
        intro kv hkv e
        have hm : kv.1 ∈ List.map Prod.fst rest := List.mem_map_of_mem Prod.fst hkv
        rw [e] at hm
        exact hnd.1 hm
      rw [cfgFold_not_mem rest _ k hother, if_pos hf, setVal_same]
    · exact ih hnd.2 hmem' _

/-- `load_modules_to_remote` touches only `module_config` and
`modules_to_remote`. -/
theorem load_modules_to_remote_other (cfg : ConfigFile) (s : SettingsMap)
    (k : String) (h1 : k ≠ "modules_to_remote") (h2 : k ≠ "module_config") :
    load_modules_to_remote cfg s k = s k := by
  unfold load_modules_to_remote
  cases cfg.modulesSection with
  | none => exact setVal_other _ _ _ _ h1
  | some entries =>
    rw [setVal_other _ _ _ _ h1]
    exact setVal_other _ _ _ _ h2

/-- C8 counterexample: the claim that behaviour is identical regardless
of ambient environment fails — with the same explicit defaults and the
same (empty) config file, `max_line_length` differs between an
environment carrying `JACLANG_MAX_LINE_LENGTH=100` and an empty one. -/
theorem settings_ambient_counterexample :
    load_all emptyConfig envML100 initialSettings "max_line_length"
      ≠ load_all emptyConfig emptyEnv initialSettings "max_line_length" := by
  intro h
  have h100 : load_all emptyConfig envML100 initialSettings "max_line_length"
      = .jInt 100 := rfl
  have h88 : load_all emptyConfig emptyEnv initialSettings "max_line_length"
      = .jInt 88 := rfl
  rw [h100, h88] at h
  simp at h

/-- C8 amended: `Settings` construction reads ambient state — the config
file and environment are merged into the settings value at load time, so
runs with the same explicit defaults observe different settings under
different environment variables (`JACLANG_MAX_LINE_LENGTH=100` gives
`max_line_length = 100`, an empty environment gives the default `88`). -/
theorem settings_reads_ambient_env :
    load_all emptyConfig envML100 initialSettings "max_line_length" = .jInt 100
    ∧ load_all emptyConfig emptyEnv initialSettings "max_line_length" = .jInt 88 :=
  ⟨rfl, rfl⟩

/-- C10 counterexample: the claimed merge order fails for the field
`modules_to_remote` — with an empty config file and
`JACLANG_MODULES_TO_REMOTE=x` set, the claim predicts the converted
environment value `"x"`, but `load_modules_to_remote` runs after
`load_env_vars` and overwrites `modules_to_remote` with the current
`module_config` (here the default factory dict). -/
theorem settings_merge_order_counterexample :
    load_all emptyConfig envMTR initialSettings "modules_to_remote"
      ≠ convert_type "x" := by
  intro h
  have := congrArg ctorTag h
  rw [show ctorTag (load_all emptyConfig envMTR initialSettings "modules_to_remote")
        = 5 from rfl,
      show ctorTag (convert_type "x") = 3 from rfl] at this
  exact absurd this (by decide)

/-- C10 amended: the merge order holds for every settings field except
`module_config` and `modules_to_remote`, which `load_modules_to_remote`
rewrites last from the config file's `[modules]` section and the current
`module_config`: (a) a `JACLANG_`/`JAC_` environment value overrides
whatever the config file set; (b) `JACLANG_<NAME>` takes precedence over
`JAC_<NAME>`; (c) without an environment override the config file's
`[settings]` value stands; (d) `POD_MANAGER_URL` overrides
`pod_manager_url` last, regardless of config file and prefixed
variables, and (e) with `POD_MANAGER_URL` unset the prefixed variables
govern `pod_manager_url` as for other fields. -/
theorem settings_merge_order_amended :
    (∀ (cfg : ConfigFile) (env : Env) (s : SettingsMap) (k v : String),
       k ∈ plainFields → envLookup env k = some v →
       load_all cfg env s k = convert_type v)
    ∧ (∀ (env : Env) (k w : String), env ("JACLANG_" ++ pyUpper k) = some w →
       envLookup env k = some w)
    ∧ (∀ (cfg : ConfigFile) (entries : List (String × String)) (env : Env)
        (s : SettingsMap) (k v : String),
       cfg.settingsSection = some entries → k ∈ plainFields →
       (entries.map Prod.fst).Nodup → (k, v) ∈ entries →
       envLookup env k = none →
       load_all cfg env s k = convert_type v)
    ∧ (∀ (cfg : ConfigFile) (env : Env) (s : SettingsMap) (v : String),
       env "POD_MANAGER_URL" = some v →
       load_all cfg env s "pod_manager_url" = .jStr v)
    ∧ (∀ (cfg : ConfigFile) (env : Env) (s : SettingsMap) (v : String),
       env "POD_MANAGER_URL" = none →
       envLookup env "pod_manager_url" = some v →
       load_all cfg env s "pod_manager_url" = convert_type v) := by
  have hplain : ∀ x ∈ plainFields,
      x ∈ fieldNames ∧ x ≠ "modules_to_remote" ∧ x ≠ "module_config"
        ∧ x ≠ "pod_manager_url" := by decide
  have hnd : fieldNames.Nodup := by decide
  have hpodf : "pod_manager_url" ∈ fieldNames := by decide
  refine ⟨?_, ?_, ?_, ?_, ?_⟩
  · intro cfg env s k v hk henv
    obtain ⟨hkf, hk1, hk2, hk3⟩ := hplain k hk
    unfold load_all
    rw [load_modules_to_remote_other _ _ _ hk1 hk2]
    unfold load_env_vars
    rw [setVal_other _ _ _ _ hk3, envFold_at env fieldNames hnd k hkf, henv]
  · intro env k w h
    unfold envLookup
    rw [h]
    rfl
  · intro cfg entries env s k v hsec hk hndk hmem henv
    obtain ⟨hkf, hk1, hk2, hk3⟩ := hplain k hk
    unfold load_all
    rw [load_modules_to_remote_other _ _ _ hk1 hk2]
    unfold load_env_vars
    rw [setVal_other _ _ _ _ hk3, envFold_at env fieldNames hnd k hkf, henv]
    unfold load_config_file
    rw [hsec]
    exact cfgFold_at entries k v hndk hmem hkf s
  · intro cfg env s v h
    unfold load_all
    rw [load_modules_to_remote_other _ _ _ (by decide) (by decide)]
    unfold load_env_vars
    rw [setVal_same, h]
  · intro cfg env s v hpod henv
    unfold load_all
    rw [load_modules_to_remote_other _ _ _ (by decide) (by decide)]
    unfold load_env_vars
    rw [setVal_same, hpod, envFold_at env fieldNames hnd _ hpodf, henv]

/-- Closed witness for `settings_merge_order_amended`: the environment
beats the config file for `max_line_length`, the config file stands for
`pass_timer`, `POD_MANAGER_URL` beats everything for `pod_manager_url`,
and with it unset `JAC_POD_MANAGER_URL` applies. -/
theorem settings_merge_order_amended_witness :
    load_all cfgW envML100 initialSettings "max_line_length" = convert_type "100"
    ∧ load_all cfgW envML100 initialSettings "pass_timer" = convert_type "1"
    ∧ load_all cfgW envPod initialSettings "pod_manager_url" = .jStr "http://pod"
    ∧ load_all emptyConfig envJacPod initialSettings "pod_manager_url"
        = convert_type "u" :=
  ⟨settings_merge_order_amended.1 cfgW envML100 initialSettings
      "max_line_length" "100" (by decide) rfl,
   settings_merge_order_amended.2.2.1 cfgW _ envML100 initialSettings
      "pass_timer" "1" rfl (by decide) (by decide) (by decide) rfl,
   settings_merge_order_amended.2.2.2.1 cfgW envPod initialSettings
      "http://pod" rfl,
   settings_merge_order_amended.2.2.2.2 emptyConfig envJacPod initialSettings
      "u" rfl rfl⟩

/-- C4: the bound file value carries the part's filename, raw bytes,
declared content type, and `size` equal to the byte length; binding
zero-length content yields `size = 0` and a successful envelope, not an
error. -/
theorem upload_file_value_correct :
    (∀ (fn : String) (data : List Nat) (ct : String),
       (UploadFile.from_bytes fn data ct).filename = fn
       ∧ (UploadFile.from_bytes fn data ct).content = data
       ∧ (UploadFile.from_bytes fn data ct).content_type = ct
       ∧ (UploadFile.from_bytes fn data ct).size = data.length)
    ∧ (∀ (fn ct d : String),
       handleRequest uploadDocumentSchema uploadDocumentWalker
           (.multipart ⟨[("file", ⟨fn, [], ct⟩)], [("description", d)]⟩)
         = mkSuccessEnvelope
             [.jObj [("filename", .jStr fn), ("content_type", .jStr ct),
                     ("size", .jInt 0), ("description", .jStr d)]]) :=
  ⟨fun _ _ _ => ⟨rfl, rfl, rfl, rfl⟩, fun _ _ _ => rfl⟩

/-- C5: a non-file parameter missing from the multipart form fields is
bound to its declared default; in particular `UploadDocument` with only a
file part reports `description = ""`. -/
theorem multipart_default_binding :
    (∀ (mp : MultipartBody) (p : Param) (d : JVal),
       p.ptype = .text → p.default = some d →
       alookup mp.textFields p.name = none →
       bindParamMultipart mp p = .ok (.val d))
    ∧ (∀ (fn : String) (content : List Nat) (ct : String),
       handleRequest uploadDocumentSchema uploadDocumentWalker
           (.multipart ⟨[("file", ⟨fn, content, ct⟩)], []⟩)
         = mkSuccessEnvelope
             [.jObj [("filename", .jStr fn), ("content_type", .jStr ct),
                     ("size", .jInt content.length),
                     ("description", .jStr "")]]) := by
  refine ⟨?_, fun _ _ _ => rfl⟩
  intro mp p d hpt hdf hlk
  obtain ⟨n, pt, df⟩ := p
  cases hpt
  simp only [bindParamMultipart] at *
  rw [hlk, hdf]

/-- Closed witness for `multipart_default_binding`: a text parameter with
default `""` and no matching form field binds to `""`. -/
theorem multipart_default_binding_witness :
    bindParamMultipart ⟨[], []⟩ ⟨"description", .text, some (.jStr "")⟩
      = .ok (.val (.jStr "")) :=
  multipart_default_binding.1 ⟨[], []⟩ ⟨"description", .text, some (.jStr "")⟩
    (.jStr "") rfl rfl rfl

/-- Two association lists differing only in the order of their two
distinct keys look up identically. -/
theorem alookup_swap {α : Type} (k1 k2 : String) (a b : α) (hne : k1 ≠ k2)
    (n : String) :
    alookup [(k1, a), (k2, b)] n = alookup [(k2, b), (k1, a)] n := by
  simp only [alookup]
  by_cases h1 : k1 = n
  · subst h1
    have h2 : k2 ≠ k1 := fun e => hne e.symm
    simp [h2]
  · by_cases h2 : k2 = n
    · subst h2
      simp [hne, h1]
    · simp [h1, h2]

/-- Multipart binding of one parameter depends on the body only through
the lookup of that parameter's own name. -/
theorem bindParamMultipart_congr (mp1 mp2 : MultipartBody) (p : Param)
    (hf : ∀ n, alookup mp1.fileParts n = alookup mp2.fileParts n)
    (ht : ∀ n, alookup mp1.textFields n = alookup mp2.textFields n) :
    bindParamMultipart mp1 p = bindParamMultipart mp2 p := by
  obtain ⟨n, pt, df⟩ := p
  cases pt with
  | file => simp only [bindParamMultipart]; rw [hf n]
  | text => simp only [bindParamMultipart]; rw [ht n]
  | scalar => simp only [bindParamMultipart]; rw [ht n]

/-- Whole-schema multipart binding is determined by the per-name
lookups alone. -/
theorem bindWalker_multipart_congr (schema : List Param)
    (mp1 mp2 : MultipartBody)
    (hf : ∀ n, alookup mp1.fileParts n = alookup mp2.fileParts n)
    (ht : ∀ n, alookup mp1.textFields n = alookup mp2.textFields n) :
    bindWalker schema (.multipart mp1) = bindWalker schema (.multipart mp2) := by
  induction schema with
  | nil => rfl
  | cons p rest ih =>
    simp only [bindWalker, bindParam]
    rw [bindParamMultipart_congr mp1 mp2 p hf ht, ih]

/-- C3: each file parameter is bound from the form part whose field name
matches that parameter's name, independently of the other parameters and
of part order (binding depends only on the per-name lookups); in
particular `UploadMultipleFiles` binds `file1` to `first.txt`, `file2`
to `second.txt` and passes `label` through, with each size the length of
its own content. -/
theorem multipart_file_binding_per_name :
    (∀ (mp : MultipartBody) (p : Param) (part : FilePart),
       p.ptype = .file → alookup mp.fileParts p.name = some part →
       bindParamMultipart mp p
         = .ok (.file (UploadFile.from_bytes part.filename part.content
             part.contentType)))
    ∧ (∀ (schema : List Param) (mp1 mp2 : MultipartBody),
       (∀ n, alookup mp1.fileParts n = alookup mp2.fileParts n) →
       (∀ n, alookup mp1.textFields n = alookup mp2.textFields n) →
       bindWalker schema (.multipart mp1) = bindWalker schema (.multipart mp2))
    ∧ (∀ (c1 c2 : List Nat) (lab : String),
       handleRequest uploadMultipleSchema uploadMultipleWalker
           (.multipart ⟨[("file1", ⟨"first.txt", c1, "text/plain"⟩),
                         ("file2", ⟨"second.txt", c2, "text/plain"⟩)],
                        [("label", lab)]⟩)
         = mkSuccessEnvelope
             [.jObj [("file1", .jObj [("filename", .jStr "first.txt"),
                                      ("size", .jInt c1.length)]),
                     ("file2", .jObj [("filename", .jStr "second.txt"),
                                      ("size", .jInt c2.length)]),
                     ("label", .jStr lab)]]) := by
  refine ⟨?_, bindWalker_multipart_congr, fun _ _ _ => rfl⟩
  intro mp p part hpt hlk
  obtain ⟨n, pt, df⟩ := p
  cases hpt
  simp only [bindParamMultipart] at *
  rw [hlk]

/-- Closed witness for `multipart_file_binding_per_name`: a concrete
per-name binding, and order-independence for two concrete parts given in
both orders. -/
theorem multipart_file_binding_per_name_witness :
    bindParamMultipart ⟨[("file", ⟨"a.txt", [104, 105], "text/plain"⟩)], []⟩
        ⟨"file", .file, none⟩
      = .ok (.file (UploadFile.from_bytes "a.txt" [104, 105] "text/plain"))
    ∧ bindWalker uploadMultipleSchema
        (.multipart ⟨[("file1", ⟨"first.txt", [65], "text/plain"⟩),
                      ("file2", ⟨"second.txt", [66, 67], "text/plain"⟩)],
                     [("label", "L")]⟩)
      = bindWalker uploadMultipleSchema
        (.multipart ⟨[("file2", ⟨"second.txt", [66, 67], "text/plain"⟩),
                      ("file1", ⟨"first.txt", [65], "text/plain"⟩)],
                     [("label", "L")]⟩) :=
  ⟨multipart_file_binding_per_name.1
      ⟨[("file", ⟨"a.txt", [104, 105], "text/plain"⟩)], []⟩
      ⟨"file", .file, none⟩ ⟨"a.txt", [104, 105], "text/plain"⟩ rfl rfl,
   multipart_file_binding_per_name.2.1 uploadMultipleSchema
      ⟨[("file1", ⟨"first.txt", [65], "text/plain"⟩),
        ("file2", ⟨"second.txt", [66, 67], "text/plain"⟩)], [("label", "L")]⟩
      ⟨[("file2", ⟨"second.txt", [66, 67], "text/plain"⟩),
        ("file1", ⟨"first.txt", [65], "text/plain"⟩)], [("label", "L")]⟩
      (alookup_swap "file1" "file2"
        (⟨"first.txt", [65], "text/plain"⟩ : FilePart)
        (⟨"second.txt", [66, 67], "text/plain"⟩ : FilePart) (by decide))
      (fun _ => rfl)⟩

/-- Mapping text values into JSON strings commutes with lookup. -/
theorem alookup_map_jStr (vals : List (String × String)) (n : String) :
    alookup (vals.map fun kv => (kv.1, JVal.jStr kv.2)) n
      = (alookup vals n).map JVal.jStr := by
  induction vals with
  | nil => rfl
  | cons kv rest ih =>
    obtain ⟨k, v⟩ := kv
    by_cases h : k = n <;> simp [alookup, h, ih]

/-- For a non-file parameter, JSON binding of string values coincides
with multipart binding of the same values as text form fields. -/
theorem bindParam_json_eq_multipart (vals : List (String × String)) (p : Param)
    (hnf : p.ptype ≠ .file) :
    bindParamJson (vals.map fun kv => (kv.1, JVal.jStr kv.2)) p
      = bindParamMultipart ⟨[], vals⟩ p := by
  obtain ⟨n, pt, df⟩ := p
  cases pt with
  | file => exact absurd rfl hnf
  | text =>
    simp only [bindParamJson, bindParamMultipart]
    rw [alookup_map_jStr]
    cases alookup vals n with
    | none => rfl
    | some s => rfl
  | scalar =>
    simp only [bindParamJson, bindParamMultipart]
    rw [alookup_map_jStr]
    cases alookup vals n with
    | none => rfl
    | some s => rfl

/-- Whole-schema version of `bindParam_json_eq_multipart`. -/
theorem bindWalker_json_eq_multipart (schema : List Param)
    (vals : List (String × String)) (hnf : ∀ p ∈ schema, p.ptype ≠ .file) :
    bindWalker schema (.json (vals.map fun kv => (kv.1, JVal.jStr kv.2)))
      = bindWalker schema (.multipart ⟨[], vals⟩) := by
  induction schema with
  | nil => rfl
  | cons p rest ih =>
    simp only [bindWalker, bindParam]
    rw [bindParam_json_eq_multipart vals p (hnf p (List.mem_cons_self p rest)),
        ih fun q hq => hnf q (List.mem_cons_of_mem p hq)]

/-- A non-file parameter with a matching field or a default binds
successfully from a multipart body. -/
theorem bindParamMultipart_no_file_ok (vals : List (String × String)) (p : Param)
    (hnf : p.ptype ≠ .file)
    (hcov : p.default = none → (alookup vals p.name).isSome = true) :
    ∃ b, bindParamMultipart ⟨[], vals⟩ p = .ok b := by
  obtain ⟨n, pt, df⟩ := p
  cases pt with
  | file => exact absurd rfl hnf
  | text =>
    simp only [bindParamMultipart]
    cases h : alookup vals n with
    | some s => exact ⟨_, rfl⟩
    | none =>
      cases hdf : df with
      | some d => exact ⟨_, rfl⟩
      | none =>
        have := hcov hdf
        rw [h] at this
        cases this
  | scalar =>
    simp only [bindParamMultipart]
    cases h : alookup vals n with
    | some s => exact ⟨_, rfl⟩
    | none =>
      cases hdf : df with
      | some d => exact ⟨_, rfl⟩
      | none =>
        have := hcov hdf
        rw [h] at this
        cases this

/-- A file-parameter-free schema whose defaultless parameters are all
covered binds successfully from a multipart body of text fields. -/
theorem bindWalker_no_file_ok (schema : List Param)
    (vals : List (String × String)) (hnf : ∀ p ∈ schema, p.ptype ≠ .file)
    (hcov : ∀ p ∈ schema, p.default = none → (alookup vals p.name).isSome = true) :
    ∃ bs, bindWalker schema (.multipart ⟨[], vals⟩) = .ok bs := by
  induction schema with
  | nil => exact ⟨[], rfl⟩
  | cons p rest ih =>
    obtain ⟨b, hb⟩ := bindParamMultipart_no_file_ok vals p
      (hnf p (List.mem_cons_self p rest)) (hcov p (List.mem_cons_self p rest))
    obtain ⟨bs, hbs⟩ := ih (fun q hq => hnf q (List.mem_cons_of_mem p hq))
      (fun q hq => hcov q (List.mem_cons_of_mem p hq))
    refine ⟨(p.name, b) :: bs, ?_⟩
    simp only [bindWalker, bindParam]
    rw [hb, hbs]

/-- C2: a walker with no file parameters accepts the same values as a
JSON body and as a multipart body of matching text fields — both
requests succeed and produce identical report lists. -/
theorem json_multipart_equivalence (schema : List Param)
    (vals : List (String × String))
    (walkerFn : List (String × BoundVal) → List JVal)
    (hnf : ∀ p ∈ schema, p.ptype ≠ .file)
    (hcov : ∀ p ∈ schema, p.default = none → (alookup vals p.name).isSome = true) :
    ∃ reports,
      handleRequest schema walkerFn
          (.json (vals.map fun kv => (kv.1, JVal.jStr kv.2)))
        = mkSuccessEnvelope reports
      ∧ handleRequest schema walkerFn (.multipart ⟨[], vals⟩)
        = mkSuccessEnvelope reports := by
  obtain ⟨bs, hbs⟩ := bindWalker_no_file_ok schema vals hnf hcov
  refine ⟨walkerFn bs, ?_, ?_⟩
  · unfold handleRequest
    rw [bindWalker_json_eq_multipart schema vals hnf, hbs]
  · unfold handleRequest
    rw [hbs]

/-- Closed witness for `json_multipart_equivalence`: `SimpleGreet` called
with `name=FileTest` via JSON and via multipart text fields. -/
theorem json_multipart_equivalence_witness :
    ∃ reports,
      handleRequest simpleGreetSchema simpleGreetWalker
          (.json [("name", .jStr "FileTest")])
        = mkSuccessEnvelope reports
      ∧ handleRequest simpleGreetSchema simpleGreetWalker
          (.multipart ⟨[], [("name", "FileTest")]⟩)
        = mkSuccessEnvelope reports :=
  json_multipart_equivalence simpleGreetSchema [("name", "FileTest")]
    simpleGreetWalker (by decide)
    (by
      intro p hp hdef
      simp only [simpleGreetSchema, List.mem_singleton] at hp
      subst hp
      rfl)

/-- `hasFileParam` reflects the existence of a declared file
parameter. -/
theorem hasFileParam_iff (schema : List Param) :
    hasFileParam schema = true ↔ ∃ p ∈ schema, p.ptype = .file := by
  simp [hasFileParam, List.any_eq_true]

/-- C7: a walker path advertises `multipart/form-data` under its
`requestBody.content` exactly when the walker declares at least one file
parameter; in the fixture table, `UploadDocument` advertises it and
`SimpleGreet` does not. -/
theorem openapi_multipart_iff :
    (∀ schema : List Param,
       "multipart/form-data" ∈ requestContentTypes schema
         ↔ ∃ p ∈ schema, p.ptype = .file)
    ∧ alookup (openapiPaths demoWalkers) "/walker/UploadDocument"
        = some ["application/json", "multipart/form-data"]
    ∧ alookup (openapiPaths demoWalkers) "/walker/SimpleGreet"
        = some ["application/json"] := by
  refine ⟨?_, rfl, rfl⟩
  intro schema
  rw [← hasFileParam_iff]
  unfold requestContentTypes
  cases h : hasFileParam schema with
  | false =>
    rw [if_neg (by decide)]
    exact iff_of_false (by decide) (by decide)
  | true =>
    rw [if_pos rfl]
    exact iff_of_true (by decide) rfl

/-- Closed witness for `openapi_multipart_iff`: `UploadDocument`'s
schema has a file parameter, so its content types include multipart. -/
theorem openapi_multipart_iff_witness :
    "multipart/form-data" ∈ requestContentTypes uploadDocumentSchema :=
  (openapi_multipart_iff.1 uploadDocumentSchema).mpr
    ⟨⟨"file", .file, none⟩, List.mem_cons_self _ _, rfl⟩

end Jaseci
